import Mathlib

/-!
Verification of the permission-usage detection and de-duplication logic of a
browser extension.  The definitions below are a shallow embedding of the
content script (the debounce map, the smart location tracking state, the API
wrappers) and of the popup's bounded log store.  Timestamps are naturals
(milliseconds); arithmetic comparisons are performed over `Int`, matching the
JavaScript integer subtraction semantics of `Date.now()` differences.
-/

/-- Association-list lookup, mirroring `Map.get` (first matching key wins;
maps built by `aset` have unique keys, matching a JavaScript `Map`). -/
def alookup {κ ν : Type} [DecidableEq κ] (k : κ) : List (κ × ν) → Option ν
  | [] => none
  | e :: rest => if e.1 = k then some e.2 else alookup k rest

/-- Association-list update, mirroring `Map.set`: replace the value in place
when the key is present, append a new entry otherwise. -/
def aset {κ ν : Type} [DecidableEq κ] (k : κ) (v : ν) : List (κ × ν) → List (κ × ν)
  | [] => [(k, v)]
  | e :: rest => if e.1 = k then (k, v) :: rest else e :: aset k v rest

/-- Keys of an association list. -/
def akeys {κ ν : Type} (m : List (κ × ν)) : List κ := m.map Prod.fst

/-- Mutable state of the content script: the `loggedEvents` debounce map and
the `locationTracking` record (`lastLogTime`, `activeWatchers`, `isUnloading`,
`lastVisibilityChange`), plus the per-watch callback counters, which in the
source live in one closure per `watchPosition` call. -/
structure ScriptState where
  loggedEvents : List (String × Nat)
  lastLogTime : Nat
  activeWatchers : List Nat
  watchCounts : List (Nat × Nat)
  isUnloading : Bool
  lastVisibilityChange : Nat
deriving DecidableEq, Repr

/-- The state at script start-up: empty map, all clocks at zero. -/
def initState : ScriptState :=
  { loggedEvents := []
    lastLogTime := 0
    activeWatchers := []
    watchCounts := []
    isUnloading := false
    lastVisibilityChange := 0 }

/-- `DEBOUNCE_TIME = 500` ms. -/
def DEBOUNCE_TIME : Int := 500

/-- `MIN_LOG_INTERVAL = 5000` ms. -/
def MIN_LOG_INTERVAL : Int := 5000

/-- The purge step of `notifyPermissionUsage`: drop every map entry older
than 5000 ms (`now - timestamp > 5000`). -/
def purgeOld (now : Nat) (m : List (String × Nat)) : List (String × Nat) :=
  m.filter (fun e => !(decide ((now : Int) - (e.2 : Int) > 5000)))

/-- Accept path of `notifyPermissionUsage`: record the acceptance time for
the key, purge stale entries, and dispatch one `PERMISSION_DETECTED` event
carrying `(permissionType, action || 'accessed')`. -/
def notifyAccept (s : ScriptState) (eventKey permissionType action : String)
    (now : Nat) : ScriptState × List (String × String) :=
  ({ s with loggedEvents := purgeOld now (aset eventKey now s.loggedEvents) },
   [(permissionType, if action = "" then "accessed" else action)])

/-- `notifyPermissionUsage(permissionType, action)` evaluated at time `now`:
the event key is `permissionType + "-" + action`; reject as a duplicate when
the key was accepted less than `DEBOUNCE_TIME` ago, otherwise accept. -/
def notifyPermissionUsage (s : ScriptState) (permissionType action : String)
    (now : Nat) : ScriptState × List (String × String) :=
  match alookup (permissionType ++ "-" ++ action) s.loggedEvents with
  | some lastLogTime =>
      if (now : Int) - (lastLogTime : Int) < DEBOUNCE_TIME then (s, [])
      else notifyAccept s (permissionType ++ "-" ++ action) permissionType action now
  | none => notifyAccept s (permissionType ++ "-" ++ action) permissionType action now

/-- Variant of `notifyPermissionUsage` with the cache-hygiene purge loop
removed; used only to compare acceptance decisions with the real function. -/
def notifyAcceptNoPurge (s : ScriptState) (eventKey permissionType action : String)
    (now : Nat) : ScriptState × List (String × String) :=
  ({ s with loggedEvents := aset eventKey now s.loggedEvents },
   [(permissionType, if action = "" then "accessed" else action)])

/-- `notifyPermissionUsage` without the purge step (see `notifyAcceptNoPurge`). -/
def notifyPermissionUsageNoPurge (s : ScriptState) (permissionType action : String)
    (now : Nat) : ScriptState × List (String × String) :=
  match alookup (permissionType ++ "-" ++ action) s.loggedEvents with
  | some lastLogTime =>
      if (now : Int) - (lastLogTime : Int) < DEBOUNCE_TIME then (s, [])
      else notifyAcceptNoPurge s (permissionType ++ "-" ++ action) permissionType action now
  | none => notifyAcceptNoPurge s (permissionType ++ "-" ++ action) permissionType action now

/-- The visibility-window guard shared by both geolocation wrappers:
`timeSinceVisibilityChange < 2000 && lastVisibilityChange > 0`. -/
def inVisibilityWindow (s : ScriptState) (now : Nat) : Bool :=
  decide ((now : Int) - (s.lastVisibilityChange : Int) < 2000) &&
    decide (s.lastVisibilityChange > 0)

/-- Success callback installed by the `getCurrentPosition` wrapper, evaluated
at time `now`.  Returns the new state, whether the location rule accepted the
callback (i.e. took the logging branch), and the dispatched events. -/
def getCurrentPositionCallback (s : ScriptState) (now : Nat) :
    ScriptState × Bool × List (String × String) :=
  if s.isUnloading then (s, false, [])
  else if inVisibilityWindow s now then (s, false, [])
  else if (now : Int) - (s.lastLogTime : Int) = (now : Int) ∨
      (now : Int) - (s.lastLogTime : Int) ≥ MIN_LOG_INTERVAL then
    let r := notifyPermissionUsage s "location" "accessed" now
    ({ r.1 with lastLogTime := now }, true, r.2)
  else (s, false, [])

/-- Success callback installed by the `watchPosition` wrapper.
`callbackCount` is the closure counter before this invocation; the result
carries the new state, the updated counter, whether the location rule
accepted the callback, and the dispatched events.  Note that the counter is
incremented only after the `isUnloading` early return, and that a callback
suppressed by the visibility window still consumes a counter increment. -/
def watchPositionCallback (s : ScriptState) (callbackCount now : Nat) :
    ScriptState × Nat × Bool × List (String × String) :=
  if s.isUnloading then (s, callbackCount, false, [])
  else
    let c := callbackCount + 1
    if inVisibilityWindow s now then (s, c, false, [])
    else if c = 1 ∨ (now : Int) - (s.lastLogTime : Int) ≥ MIN_LOG_INTERVAL then
      let r := notifyPermissionUsage s "location" "accessed" now
      ({ r.1 with lastLogTime := now }, c, true, r.2)
    else (s, c, false, [])

/-- `watchPosition` registration: a fresh per-watch counter starting at 0 and
the id added to `activeWatchers` (a set). -/
def watchPositionStart (s : ScriptState) (watchId : Nat) : ScriptState :=
  { s with
      activeWatchers :=
        if watchId ∈ s.activeWatchers then s.activeWatchers
        else s.activeWatchers ++ [watchId]
      watchCounts := aset watchId 0 s.watchCounts }

/-- `clearWatch` wrapper: remove the id from `activeWatchers` and delegate to
the original capability; no logging of any kind. -/
def clearWatch (s : ScriptState) (watchId : Nat) :
    ScriptState × List (String × String) :=
  ({ s with activeWatchers := s.activeWatchers.erase watchId }, [])

/-- The externally visible operations of the content script that touch its
mutable state. -/
inductive PageEvent where
  | raw (kind action : String) (now : Nat)
  | oneShot (now : Nat)
  | startWatch (id : Nat)
  | watchCb (id : Nat) (now : Nat)
  | clearW (id : Nat)
  | beforeunload
  | pagehide
  | visibilityVisible (now : Nat)
deriving DecidableEq, Repr

/-- One step of the content script: dispatch a `PageEvent` to the handler the
source installs for it, returning the new state and the emitted events. -/
def step (s : ScriptState) (e : PageEvent) : ScriptState × List (String × String) :=
  match e with
  | .raw k a now => notifyPermissionUsage s k a now
  | .oneShot now =>
      let r := getCurrentPositionCallback s now
      (r.1, r.2.2)
  | .startWatch id => (watchPositionStart s id, [])
  | .watchCb id now =>
      let c := (alookup id s.watchCounts).getD 0
      let r := watchPositionCallback s c now
      ({ r.1 with watchCounts := aset id r.2.1 r.1.watchCounts }, r.2.2.2)
  | .clearW id => clearWatch s id
  | .beforeunload => ({ s with isUnloading := true }, [])
  | .pagehide => ({ s with isUnloading := true }, [])
  | .visibilityVisible now => ({ s with lastVisibilityChange := now }, [])

/-- `getUserMedia` wrapper.  `video`/`audio` model `constraints.video` and
`constraints.audio`; `result` is the outcome of the original call.  On
success a camera signal (when video was requested) and then a microphone
signal (when audio was requested) are raised; on rejection the error is
re-thrown unchanged and nothing is raised.  (The wrapping of the returned
tracks for stop detection is outside the claims and not modelled.) -/
def getUserMedia {ε α : Type} (s : ScriptState) (video audio : Bool)
    (result : Except ε α) (now : Nat) :
    ScriptState × List (String × String) × Except ε α :=
  match result with
  | .error e => (s, [], .error e)
  | .ok stream =>
      let r1 := if video then notifyPermissionUsage s "camera" "active" now
                else (s, [])
      let r2 := if audio then notifyPermissionUsage r1.1 "microphone" "active" now
                else (r1.1, [])
      (r2.1, r1.2 ++ r2.2, .ok stream)

/-- `clipboard.readText` wrapper: the resolved text is `none` for
`undefined`/`null` and `some t` for a string `t`; a signal is raised exactly
when the text is defined (`text !== undefined && text !== null`), and the
resolved value or rejection is passed through unchanged. -/
def clipboardReadText {ε : Type} (s : ScriptState)
    (result : Except ε (Option String)) (now : Nat) :
    ScriptState × List (String × String) × Except ε (Option String) :=
  match result with
  | .error e => (s, [], .error e)
  | .ok t =>
      if t ≠ none then
        let r := notifyPermissionUsage s "clipboard-read" "accessed" now
        (r.1, r.2, .ok t)
      else (s, [], .ok t)

/-- `clipboard.read` wrapper: the resolved value is `none` for a falsy
result and `some items` otherwise; a signal is raised exactly when
`clipboardItems && clipboardItems.length > 0`. -/
def clipboardRead {ε γ : Type} (s : ScriptState)
    (result : Except ε (Option (List γ))) (now : Nat) :
    ScriptState × List (String × String) × Except ε (Option (List γ)) :=
  match result with
  | .error e => (s, [], .error e)
  | .ok items =>
      let truthyNonEmpty :=
        match items with
        | none => false
        | some l => decide (l.length > 0)
      if truthyNonEmpty then
        let r := notifyPermissionUsage s "clipboard-read" "accessed" now
        (r.1, r.2, .ok items)
      else (s, [], .ok items)

/-- `clipboard.writeText` wrapper: a signal on fulfilment, the rejection
re-thrown unchanged otherwise. -/
def clipboardWriteText {ε : Type} (s : ScriptState) (result : Except ε Unit)
    (now : Nat) : ScriptState × List (String × String) × Except ε Unit :=
  match result with
  | .error e => (s, [], .error e)
  | .ok _ =>
      let r := notifyPermissionUsage s "clipboard-write" "accessed" now
      (r.1, r.2, .ok ())

/-- `clipboard.write` wrapper: identical shape to `clipboard.writeText`. -/
def clipboardWrite {ε : Type} (s : ScriptState) (result : Except ε Unit)
    (now : Nat) : ScriptState × List (String × String) × Except ε Unit :=
  match result with
  | .error e => (s, [], .error e)
  | .ok _ =>
      let r := notifyPermissionUsage s "clipboard-write" "accessed" now
      (r.1, r.2, .ok ())

/-- The `Notification` constructor wrapper: it raises the
`notifications/shown` signal first and only then delegates to the original
constructor, whose outcome (`result`, a value or a thrown error) is passed
through unchanged. -/
def notificationConstruct {ε α : Type} (s : ScriptState) (result : Except ε α)
    (now : Nat) : ScriptState × List (String × String) × Except ε α :=
  let r := notifyPermissionUsage s "notifications" "shown" now
  (r.1, r.2, result)

/-- The popup's `saveLog`: prepend the new entry (`unshift`) and truncate to
the first 1000 entries when the bound is exceeded (`logs.length = 1000`). -/
def saveLog {α : Type} (logs : List α) (entry : α) : List α :=
  let grown := entry :: logs
  if grown.length > 1000 then grown.take 1000 else grown

/-- Submit a sequence of usage events to the log store, oldest first. -/
def submitAll {α : Type} (logs : List α) (entries : List α) : List α :=
  entries.foldl saveLog logs

/-- Run a sequence of raw `(permissionType, action, time)` signals through
`notifyPermissionUsage`, returning the events dispatched for each signal. -/
def runSignals : ScriptState → List (String × String × Nat) →
    List (List (String × String))
  | _, [] => []
  | s, sig :: rest =>
      let r := notifyPermissionUsage s sig.1 sig.2.1 sig.2.2
      r.2 :: runSignals r.1 rest

/-- `runSignals` for the purge-free debouncer variant. -/
def runSignalsNoPurge : ScriptState → List (String × String × Nat) →
    List (List (String × String))
  | _, [] => []
  | s, sig :: rest =>
      let r := notifyPermissionUsageNoPurge s sig.1 sig.2.1 sig.2.2
      r.2 :: runSignalsNoPurge r.1 rest

/-- The spec's acceptance condition for a one-shot location callback that is
not suppressed by the unloading flag or the visibility window: first callback
ever (no location signal accepted yet, `lastAcceptedAt = 0`) or at least
5000 ms since the last accepted location signal. -/
def specLocationOneShotAccept (lastAcceptedAt now : Nat) : Prop :=
  lastAcceptedAt = 0 ∨ (now : Int) - (lastAcceptedAt : Int) ≥ 5000

/-- The spec's acceptance condition for a continuous-watch callback that is
not suppressed: first callback of this watch (no prior callbacks counted) or
at least 5000 ms since the last accepted location signal. -/
def specLocationWatchAccept (priorCallbacks lastAcceptedAt now : Nat) : Prop :=
  priorCallbacks = 0 ∨ (now : Int) - (lastAcceptedAt : Int) ≥ 5000

theorem alookup_aset_self {κ ν : Type} [DecidableEq κ] (k : κ) (v : ν) :
    ∀ m : List (κ × ν), alookup k (aset k v m) = some v := by
  intro m
  induction m with
  | nil => simp [aset, alookup]
  | cons e rest ih =>
      by_cases h : e.1 = k
      · simp [aset, alookup, h]
      · simp [aset, alookup, h, ih]

theorem alookup_aset_ne {κ ν : Type} [DecidableEq κ] {j k : κ} (v : ν)
    (hjk : j ≠ k) : ∀ m : List (κ × ν), alookup j (aset k v m) = alookup j m := by
  intro m
  have hkj : ¬ k = j := fun h => hjk h.symm
  induction m with
  | nil => simp [aset, alookup, hkj]
  | cons e rest ih =>
      by_cases h : e.1 = k
      · simp [aset, alookup, h, hkj]
      · simp [aset, alookup, h, ih]

theorem alookup_filter_none {κ ν : Type} [DecidableEq κ] (k : κ)
    (p : κ × ν → Bool) :
    ∀ m : List (κ × ν), alookup k m = none → alookup k (m.filter p) = none := by
  intro m
  induction m with
  | nil => simp
  | cons e rest ih =>
      intro h
      by_cases he : e.1 = k
      · simp [alookup, he] at h
      · simp only [alookup, if_neg he] at h
        by_cases hp : p e
        · simp [List.filter_cons, hp, alookup, he, ih h]
        · simp [List.filter_cons, hp, ih h]

theorem mem_akeys_of_alookup {κ ν : Type} [DecidableEq κ] {k : κ} {w : ν} :
    ∀ {m : List (κ × ν)}, alookup k m = some w → k ∈ akeys m := by
  intro m
  induction m with
  | nil => simp [alookup]
  | cons e rest ih =>
      by_cases h : e.1 = k
      · intro _
        simp [akeys, h]
      · intro hlk
        simp only [alookup, if_neg h] at hlk
        simp only [akeys, List.map_cons, List.mem_cons]
        exact Or.inr (by simpa [akeys] using ih hlk)

theorem mem_akeys_aset {κ ν : Type} [DecidableEq κ] (j k : κ) (v : ν) :
    ∀ m : List (κ × ν), j ∈ akeys (aset k v m) ↔ j = k ∨ j ∈ akeys m := by
  intro m
  induction m with
  | nil => simp [aset, akeys]
  | cons e rest ih =>
      by_cases h : e.1 = k
      · simp only [aset, if_pos h, akeys, List.map_cons, List.mem_cons]
        rw [h]
        tauto
      · simp only [aset, if_neg h, akeys, List.map_cons, List.mem_cons]
        have ih2 : j ∈ List.map Prod.fst (aset k v rest) ↔
            j = k ∨ j ∈ List.map Prod.fst rest := by
          simpa [akeys] using ih
        rw [ih2]
        tauto

theorem nodup_akeys_aset {κ ν : Type} [DecidableEq κ] (k : κ) (v : ν) :
    ∀ m : List (κ × ν), (akeys m).Nodup → (akeys (aset k v m)).Nodup := by
  intro m
  induction m with
  | nil => simp [aset, akeys]
  | cons e rest ih =>
      intro hnd
      simp only [akeys, List.map_cons, List.nodup_cons] at hnd
      by_cases h : e.1 = k
      · simp only [aset, if_pos h, akeys, List.map_cons, List.nodup_cons]
        exact ⟨h ▸ hnd.1, hnd.2⟩
      · simp only [aset, if_neg h, akeys, List.map_cons, List.nodup_cons]
        refine ⟨?_, by simpa [akeys] using ih hnd.2⟩
        intro hmem
        rcases (mem_akeys_aset e.1 k v rest).mp (by simpa [akeys] using hmem) with h1 | h1
        · exact h h1
        · exact hnd.1 h1

theorem nodup_akeys_filter {κ ν : Type} (p : κ × ν → Bool) (m : List (κ × ν))
    (hnd : (akeys m).Nodup) : (akeys (m.filter p)).Nodup := by
  have hsub : List.Sublist (akeys (m.filter p)) (akeys m) :=
    (List.filter_sublist m).map Prod.fst
  exact hnd.sublist hsub

theorem alookup_filter_nodup {κ ν : Type} [DecidableEq κ] (k : κ)
    (p : κ × ν → Bool) :
    ∀ m : List (κ × ν), (akeys m).Nodup →
      alookup k (m.filter p) =
        (match alookup k m with
         | some v => if p (k, v) then some v else none
         | none => none) := by
  intro m
  induction m with
  | nil => simp [alookup]
  | cons e rest ih =>
      intro hnd
      simp only [akeys, List.map_cons, List.nodup_cons] at hnd
      by_cases he : e.1 = k
      · have hnone : alookup k rest = none := by
          cases hlk : alookup k rest with
          | none => rfl
          | some w => exact absurd (he ▸ mem_akeys_of_alookup hlk) hnd.1
        have hep : e = (k, e.2) := by
          cases e
          simp_all
        by_cases hp : p e
        · have hp2 : p (k, e.2) = true := by rw [← hep]; exact hp
          simp [List.filter_cons, hp, alookup, he, hp2]
        · have hp2 : p (k, e.2) = false := by rw [← hep]; simpa using hp
          simp [List.filter_cons, hp, alookup, he,
            alookup_filter_none k p rest hnone, hp2]
      · have ih2 := ih (by simpa [akeys] using hnd.2)
        by_cases hp : p e
        · simp [List.filter_cons, hp, alookup, he, ih2]
        · simp [List.filter_cons, hp, alookup, he, ih2]

theorem alookup_purge_aset (k : String) (now : Nat) :
    ∀ m : List (String × Nat),
      alookup k (purgeOld now (aset k now m)) = some now := by
  intro m
  have hkeep : (!(decide ((now : Int) - ((now : Nat) : Int) > 5000))) = true := by
    simp
  induction m with
  | nil => simp [aset, purgeOld, List.filter_cons, hkeep, alookup]
  | cons e rest ih =>
      by_cases h : e.1 = k
      · simp [aset, h, purgeOld, List.filter_cons, hkeep, alookup]
      · by_cases hp : (!(decide ((now : Int) - ((e.2 : Nat) : Int) > 5000))) = true
        · simp only [aset, if_neg h, purgeOld, List.filter_cons, hp, if_pos]
          simp only [alookup, if_neg h]
          simpa [purgeOld] using ih
        · simp only [aset, if_neg h, purgeOld, List.filter_cons]
          rw [if_neg hp]
          simpa [purgeOld] using ih

theorem notify_fields (s : ScriptState) (pt a : String) (now : Nat) :
    (notifyPermissionUsage s pt a now).1.lastLogTime = s.lastLogTime ∧
    (notifyPermissionUsage s pt a now).1.isUnloading = s.isUnloading ∧
    (notifyPermissionUsage s pt a now).1.lastVisibilityChange = s.lastVisibilityChange ∧
    (notifyPermissionUsage s pt a now).1.activeWatchers = s.activeWatchers ∧
    (notifyPermissionUsage s pt a now).1.watchCounts = s.watchCounts := by
  unfold notifyPermissionUsage
  cases alookup (pt ++ "-" ++ a) s.loggedEvents with
  | none => simp [notifyAccept]
  | some t =>
      by_cases h : (now : Int) - (t : Int) < DEBOUNCE_TIME
      · simp [h]
      · simp [h, notifyAccept]

theorem notify_accepts_of_fresh (s : ScriptState) (pt a : String) (now : Nat)
    (hfresh : alookup (pt ++ "-" ++ a) s.loggedEvents = none) :
    notifyPermissionUsage s pt a now =
      notifyAccept s (pt ++ "-" ++ a) pt a now := by
  unfold notifyPermissionUsage
  rw [hfresh]

theorem notify_accept_shape (s : ScriptState) (pt a : String) (now : Nat)
    (h : (notifyPermissionUsage s pt a now).2 ≠ []) :
    notifyPermissionUsage s pt a now =
      notifyAccept s (pt ++ "-" ++ a) pt a now := by
  unfold notifyPermissionUsage at h ⊢
  cases hsc : alookup (pt ++ "-" ++ a) s.loggedEvents with
  | none => simp only [hsc]
  | some t =>
      simp only [hsc] at h ⊢
      by_cases hlt : (now : Int) - (t : Int) < DEBOUNCE_TIME
      · rw [if_pos hlt] at h
        simp at h
      · rw [if_neg hlt]

theorem notify_reject_shape (s : ScriptState) (pt a : String) (now t : Nat)
    (hlk : alookup (pt ++ "-" ++ a) s.loggedEvents = some t)
    (hlt : (now : Int) - (t : Int) < DEBOUNCE_TIME) :
    notifyPermissionUsage s pt a now = (s, []) := by
  unfold notifyPermissionUsage
  simp only [hlk]
  rw [if_pos hlt]

theorem notify_accept_of_stale (s : ScriptState) (pt a : String) (now t : Nat)
    (hlk : alookup (pt ++ "-" ++ a) s.loggedEvents = some t)
    (hge : ¬ ((now : Int) - (t : Int) < DEBOUNCE_TIME)) :
    notifyPermissionUsage s pt a now =
      notifyAccept s (pt ++ "-" ++ a) pt a now := by
  unfold notifyPermissionUsage
  simp only [hlk]
  rw [if_neg hge]

/-- C1: generic debounce rule.  If a raw signal with key `(pt, a)` is
accepted at time `T0` (dispatching exactly one event) then the recorded time
for the key is `T0`; a second signal with the same key at time `T` is
rejected when `T - T0 < 500` ms (so exactly one event is emitted in total,
and the whole state is left unchanged by the second signal), and accepted
when `T - T0 ≥ 500` ms, in which case the recorded time is updated to `T`. -/
theorem generic_debounce_rule (s : ScriptState) (pt a : String) (T0 T : Nat)
    (h1 : (notifyPermissionUsage s pt a T0).2 ≠ []) :
    (notifyPermissionUsage s pt a T0).2 =
      [(pt, if a = "" then "accessed" else a)] ∧
    alookup (pt ++ "-" ++ a)
      (notifyPermissionUsage s pt a T0).1.loggedEvents = some T0 ∧
    ((T : Int) - (T0 : Int) < 500 →
      (notifyPermissionUsage (notifyPermissionUsage s pt a T0).1 pt a T).2 = [] ∧
      (notifyPermissionUsage (notifyPermissionUsage s pt a T0).1 pt a T).1 =
        (notifyPermissionUsage s pt a T0).1) ∧
    ((T : Int) - (T0 : Int) ≥ 500 →
      (notifyPermissionUsage (notifyPermissionUsage s pt a T0).1 pt a T).2 =
        [(pt, if a = "" then "accessed" else a)] ∧
      alookup (pt ++ "-" ++ a)
        (notifyPermissionUsage (notifyPermissionUsage s pt a T0).1 pt a T).1.loggedEvents =
        some T) := by
  have hacc := notify_accept_shape s pt a T0 h1
  have hev : (notifyPermissionUsage s pt a T0).2 =
      [(pt, if a = "" then "accessed" else a)] := by
    rw [hacc]; rfl
  have hlook : alookup (pt ++ "-" ++ a)
      (notifyPermissionUsage s pt a T0).1.loggedEvents = some T0 := by
    rw [hacc]
    show alookup (pt ++ "-" ++ a)
      (purgeOld T0 (aset (pt ++ "-" ++ a) T0 s.loggedEvents)) = some T0
    exact alookup_purge_aset (pt ++ "-" ++ a) T0 s.loggedEvents
  refine ⟨hev, hlook, ?_, ?_⟩
  · intro hT
    have hdup : (T : Int) - (T0 : Int) < DEBOUNCE_TIME := by
      unfold DEBOUNCE_TIME; exact hT
    have := notify_reject_shape (notifyPermissionUsage s pt a T0).1 pt a T T0
      hlook hdup
    rw [this]
    exact ⟨rfl, rfl⟩
  · intro hT
    have hnd : ¬ ((T : Int) - (T0 : Int) < DEBOUNCE_TIME) := by
      unfold DEBOUNCE_TIME; omega
    have hacc2 := notify_accept_of_stale (notifyPermissionUsage s pt a T0).1
      pt a T T0 hlook hnd
    rw [hacc2]
    refine ⟨rfl, ?_⟩
    show alookup (pt ++ "-" ++ a)
      (purgeOld T (aset (pt ++ "-" ++ a) T
        (notifyPermissionUsage s pt a T0).1.loggedEvents)) = some T
    exact alookup_purge_aset (pt ++ "-" ++ a) T
      (notifyPermissionUsage s pt a T0).1.loggedEvents

/-- Witness for C1: a camera/active signal accepted at time 0 and repeated
at time 100 ms.  The second signal is suppressed and the debounce map still
records time 0 for the key. -/
theorem generic_debounce_rule_witness :
    (notifyPermissionUsage initState "camera" "active" 0).2 ≠ [] ∧
    ((notifyPermissionUsage initState "camera" "active" 0).2 =
      [("camera", if "active" = "" then "accessed" else "active")] ∧
    alookup ("camera" ++ "-" ++ "active")
      (notifyPermissionUsage initState "camera" "active" 0).1.loggedEvents = some 0 ∧
    (((100 : Nat) : Int) - ((0 : Nat) : Int) < 500 →
      (notifyPermissionUsage (notifyPermissionUsage initState "camera" "active" 0).1
        "camera" "active" 100).2 = [] ∧
      (notifyPermissionUsage (notifyPermissionUsage initState "camera" "active" 0).1
        "camera" "active" 100).1 =
        (notifyPermissionUsage initState "camera" "active" 0).1) ∧
    (((100 : Nat) : Int) - ((0 : Nat) : Int) ≥ 500 →
      (notifyPermissionUsage (notifyPermissionUsage initState "camera" "active" 0).1
        "camera" "active" 100).2 =
        [("camera", if "active" = "" then "accessed" else "active")] ∧
      alookup ("camera" ++ "-" ++ "active")
        (notifyPermissionUsage (notifyPermissionUsage initState "camera" "active" 0).1
          "camera" "active" 100).1.loggedEvents = some 100)) :=
  ⟨by decide, generic_debounce_rule initState "camera" "active" 0 100 (by decide)⟩

theorem getCurrentPosition_unloading (s : ScriptState) (now : Nat)
    (h : s.isUnloading = true) :
    getCurrentPositionCallback s now = (s, false, []) := by
  unfold getCurrentPositionCallback
  rw [if_pos h]

theorem getCurrentPosition_visibility (s : ScriptState) (now : Nat)
    (h1 : s.isUnloading = false) (h2 : inVisibilityWindow s now = true) :
    getCurrentPositionCallback s now = (s, false, []) := by
  unfold getCurrentPositionCallback
  rw [if_neg (by simp [h1]), if_pos h2]

theorem getCurrentPosition_accept (s : ScriptState) (now : Nat)
    (h1 : s.isUnloading = false) (h2 : inVisibilityWindow s now = false)
    (h3 : (now : Int) - (s.lastLogTime : Int) = (now : Int) ∨
      (now : Int) - (s.lastLogTime : Int) ≥ MIN_LOG_INTERVAL) :
    getCurrentPositionCallback s now =
      ({ (notifyPermissionUsage s "location" "accessed" now).1 with
          lastLogTime := now },
       true, (notifyPermissionUsage s "location" "accessed" now).2) := by
  unfold getCurrentPositionCallback
  rw [if_neg (by simp [h1]), if_neg (by simp [h2]), if_pos h3]

theorem getCurrentPosition_reject (s : ScriptState) (now : Nat)
    (h1 : s.isUnloading = false) (h2 : inVisibilityWindow s now = false)
    (h3 : ¬ ((now : Int) - (s.lastLogTime : Int) = (now : Int) ∨
      (now : Int) - (s.lastLogTime : Int) ≥ MIN_LOG_INTERVAL)) :
    getCurrentPositionCallback s now = (s, false, []) := by
  unfold getCurrentPositionCallback
  rw [if_neg (by simp [h1]), if_neg (by simp [h2]), if_neg h3]

theorem watchPosition_unloading (s : ScriptState) (c now : Nat)
    (h : s.isUnloading = true) :
    watchPositionCallback s c now = (s, c, false, []) := by
  unfold watchPositionCallback
  rw [if_pos h]

theorem watchPosition_visibility (s : ScriptState) (c now : Nat)
    (h1 : s.isUnloading = false) (h2 : inVisibilityWindow s now = true) :
    watchPositionCallback s c now = (s, c + 1, false, []) := by
  unfold watchPositionCallback
  rw [if_neg (by simp [h1])]
  show (if inVisibilityWindow s now = true then _ else _) = _
  rw [if_pos h2]

theorem watchPosition_accept (s : ScriptState) (c now : Nat)
    (h1 : s.isUnloading = false) (h2 : inVisibilityWindow s now = false)
    (h3 : c + 1 = 1 ∨ (now : Int) - (s.lastLogTime : Int) ≥ MIN_LOG_INTERVAL) :
    watchPositionCallback s c now =
      ({ (notifyPermissionUsage s "location" "accessed" now).1 with
          lastLogTime := now },
       c + 1, true, (notifyPermissionUsage s "location" "accessed" now).2) := by
  unfold watchPositionCallback
  rw [if_neg (by simp [h1])]
  show (if inVisibilityWindow s now = true then _
    else if c + 1 = 1 ∨ (now : Int) - (s.lastLogTime : Int) ≥ MIN_LOG_INTERVAL
      then _ else _) = _
  rw [if_neg (by simp [h2]), if_pos h3]

theorem watchPosition_reject (s : ScriptState) (c now : Nat)
    (h1 : s.isUnloading = false) (h2 : inVisibilityWindow s now = false)
    (h3 : ¬ (c + 1 = 1 ∨ (now : Int) - (s.lastLogTime : Int) ≥ MIN_LOG_INTERVAL)) :
    watchPositionCallback s c now = (s, c + 1, false, []) := by
  unfold watchPositionCallback
  rw [if_neg (by simp [h1])]
  show (if inVisibilityWindow s now = true then _
    else if c + 1 = 1 ∨ (now : Int) - (s.lastLogTime : Int) ≥ MIN_LOG_INTERVAL
      then _ else _) = _
  rw [if_neg (by simp [h2]), if_neg h3]

/-- C6: clearing/cancelling a continuous watch never produces an accepted
signal or emits any event, in every state (hence regardless of timing); it
only removes the watcher id from the active set, leaving the debounce map,
the location recency state, the unloading flag, the visibility clock and the
per-watch counters untouched, and delegates to the original capability. -/
theorem clearWatch_silent :
    ∀ (s : ScriptState) (id : Nat),
      (clearWatch s id).2 = [] ∧
      (step s (PageEvent.clearW id)).2 = [] ∧
      (clearWatch s id).1.loggedEvents = s.loggedEvents ∧
      (clearWatch s id).1.lastLogTime = s.lastLogTime ∧
      (clearWatch s id).1.watchCounts = s.watchCounts ∧
      (clearWatch s id).1.isUnloading = s.isUnloading ∧
      (clearWatch s id).1.lastVisibilityChange = s.lastVisibilityChange ∧
      (clearWatch s id).1.activeWatchers = s.activeWatchers.erase id := by
  intro s id
  exact ⟨rfl, rfl, rfl, rfl, rfl, rfl, rfl, rfl⟩

/-- C8: a raw signal rejected by the debouncer has no observable effect.
A generic signal rejected by `notifyPermissionUsage` dispatches nothing and
leaves the whole state (in particular the debounce map) unchanged; a
location callback rejected by the location rule dispatches nothing and
leaves the whole state (in particular `lastLogTime`) unchanged. -/
theorem rejected_signal_no_effect :
    (∀ (s : ScriptState) (pt a : String) (now : Nat),
      (notifyPermissionUsage s pt a now).2 = [] →
      (notifyPermissionUsage s pt a now).1 = s) ∧
    (∀ (s : ScriptState) (now : Nat),
      (getCurrentPositionCallback s now).2.1 = false →
      (getCurrentPositionCallback s now).1 = s ∧
      (getCurrentPositionCallback s now).2.2 = []) ∧
    (∀ (s : ScriptState) (c now : Nat),
      (watchPositionCallback s c now).2.2.1 = false →
      (watchPositionCallback s c now).1 = s ∧
      (watchPositionCallback s c now).2.2.2 = []) := by
  refine ⟨?_, ?_, ?_⟩
  · intro s pt a now h
    unfold notifyPermissionUsage at h ⊢
    cases hsc : alookup (pt ++ "-" ++ a) s.loggedEvents with
    | none =>
        simp only [hsc] at h
        simp [notifyAccept] at h
    | some t =>
        simp only [hsc] at h ⊢
        by_cases hlt : (now : Int) - (t : Int) < DEBOUNCE_TIME
        · rw [if_pos hlt]
        · rw [if_neg hlt] at h
          simp [notifyAccept] at h
  · intro s now h
    cases hu : s.isUnloading with
    | true => rw [getCurrentPosition_unloading s now hu]; exact ⟨rfl, rfl⟩
    | false =>
        cases hv : inVisibilityWindow s now with
        | true => rw [getCurrentPosition_visibility s now hu hv]; exact ⟨rfl, rfl⟩
        | false =>
            by_cases hc : ((now : Int) - (s.lastLogTime : Int) = (now : Int) ∨
                (now : Int) - (s.lastLogTime : Int) ≥ MIN_LOG_INTERVAL)
            · rw [getCurrentPosition_accept s now hu hv hc] at h
              simp at h
            · rw [getCurrentPosition_reject s now hu hv hc]
              exact ⟨rfl, rfl⟩
  · intro s c now h
    cases hu : s.isUnloading with
    | true => rw [watchPosition_unloading s c now hu]; exact ⟨rfl, rfl⟩
    | false =>
        cases hv : inVisibilityWindow s now with
        | true => rw [watchPosition_visibility s c now hu hv]; exact ⟨rfl, rfl⟩
        | false =>
            by_cases hc : (c + 1 = 1 ∨
                (now : Int) - (s.lastLogTime : Int) ≥ MIN_LOG_INTERVAL)
            · rw [watchPosition_accept s c now hu hv hc] at h
              simp at h
            · rw [watchPosition_reject s c now hu hv hc]
              exact ⟨rfl, rfl⟩

/-- Witness for C8: a camera/active signal 100 ms after an accepted one is
rejected and changes nothing; a one-shot location callback 1 ms after an
acceptance is rejected and changes nothing; a second watch callback 1 ms
after an acceptance is rejected and changes nothing. -/
theorem rejected_signal_no_effect_witness :
    ((notifyPermissionUsage { initState with loggedEvents := [("camera-active", 0)] }
        "camera" "active" 100).2 = [] ∧
     (notifyPermissionUsage { initState with loggedEvents := [("camera-active", 0)] }
        "camera" "active" 100).1 =
       { initState with loggedEvents := [("camera-active", 0)] }) ∧
    ((getCurrentPositionCallback { initState with lastLogTime := 1 } 2).2.1 = false ∧
     (getCurrentPositionCallback { initState with lastLogTime := 1 } 2).1 =
       { initState with lastLogTime := 1 } ∧
     (getCurrentPositionCallback { initState with lastLogTime := 1 } 2).2.2 = []) ∧
    ((watchPositionCallback { initState with lastLogTime := 1 } 1 2).2.2.1 = false ∧
     (watchPositionCallback { initState with lastLogTime := 1 } 1 2).1 =
       { initState with lastLogTime := 1 } ∧
     (watchPositionCallback { initState with lastLogTime := 1 } 1 2).2.2.2 = []) :=
  ⟨⟨by decide, rejected_signal_no_effect.1 _ "camera" "active" 100 (by decide)⟩,
   ⟨by decide,
    (rejected_signal_no_effect.2.1 _ 2 (by decide)).1,
    (rejected_signal_no_effect.2.1 _ 2 (by decide)).2⟩,
   ⟨by decide,
    (rejected_signal_no_effect.2.2 _ 1 2 (by decide)).1,
    (rejected_signal_no_effect.2.2 _ 1 2 (by decide)).2⟩⟩

/-- C5: the `isUnloading` flag, once set, survives every operation of the
script (no handler ever clears it), and while it is set every location
success callback — one-shot or continuous — is rejected without emitting any
event and without changing the state. -/
theorem unloading_flag_latched :
    (∀ (s : ScriptState) (e : PageEvent),
      s.isUnloading = true → (step s e).1.isUnloading = true) ∧
    (∀ (s : ScriptState) (now : Nat),
      s.isUnloading = true → getCurrentPositionCallback s now = (s, false, [])) ∧
    (∀ (s : ScriptState) (c now : Nat),
      s.isUnloading = true → watchPositionCallback s c now = (s, c, false, [])) ∧
    (∀ (s : ScriptState) (id now : Nat),
      s.isUnloading = true →
        (step s (PageEvent.oneShot now)).2 = [] ∧
        (step s (PageEvent.watchCb id now)).2 = []) := by
  have honeshot : ∀ (s : ScriptState) (now : Nat), s.isUnloading = true →
      getCurrentPositionCallback s now = (s, false, []) :=
    fun s now h => getCurrentPosition_unloading s now h
  have hwatch : ∀ (s : ScriptState) (c now : Nat), s.isUnloading = true →
      watchPositionCallback s c now = (s, c, false, []) :=
    fun s c now h => watchPosition_unloading s c now h
  refine ⟨?_, honeshot, hwatch, ?_⟩
  · intro s e h
    cases e with
    | raw k a now =>
        show (notifyPermissionUsage s k a now).1.isUnloading = true
        rw [(notify_fields s k a now).2.1]
        exact h
    | oneShot now =>
        show (getCurrentPositionCallback s now).1.isUnloading = true
        rw [honeshot s now h]
        exact h
    | startWatch id => simpa [step, watchPositionStart] using h
    | watchCb id now =>
        simp [step, hwatch s ((alookup id s.watchCounts).getD 0) now h, h]
    | clearW id => simpa [step, clearWatch] using h
    | beforeunload => rfl
    | pagehide => rfl
    | visibilityVisible now => simpa [step] using h
  · intro s id now h
    constructor
    · show (getCurrentPositionCallback s now).2.2 = []
      rw [honeshot s now h]
    · simp [step, hwatch s ((alookup id s.watchCounts).getD 0) now h]

/-- Witness for C5: in a state whose unloading flag is set, a `beforeunload`
step keeps the flag, and location callbacks at time 3 are all rejected. -/
theorem unloading_flag_latched_witness :
    ({ initState with isUnloading := true } : ScriptState).isUnloading = true ∧
    (step { initState with isUnloading := true } PageEvent.beforeunload).1.isUnloading = true ∧
    getCurrentPositionCallback { initState with isUnloading := true } 3 =
      ({ initState with isUnloading := true }, false, []) ∧
    watchPositionCallback { initState with isUnloading := true } 0 3 =
      ({ initState with isUnloading := true }, 0, false, []) ∧
    ((step { initState with isUnloading := true } (PageEvent.oneShot 3)).2 = [] ∧
     (step { initState with isUnloading := true } (PageEvent.watchCb 1 3)).2 = []) :=
  ⟨rfl,
   unloading_flag_latched.1 _ PageEvent.beforeunload rfl,
   unloading_flag_latched.2.1 _ 3 rfl,
   unloading_flag_latched.2.2.1 _ 0 3 rfl,
   unloading_flag_latched.2.2.2 _ 1 3 rfl⟩

/-- C2: for a location success callback not suppressed by the unloading flag
or the visibility window, acceptance is characterized exactly by the spec's
predicate: a one-shot callback is accepted iff no location signal has ever
been accepted (`lastLogTime = 0`, the first-callback-ever case, which is
therefore always accepted independent of timing) or at least 5000 ms have
elapsed since the last accepted location signal; a continuous-watch callback
is accepted iff it is the first callback of its watch or at least 5000 ms
have elapsed; and on acceptance `lastLogTime` is set to the current time. -/
theorem location_acceptance_rule :
    ∀ (s : ScriptState) (now c : Nat),
      s.isUnloading = false →
      inVisibilityWindow s now = false →
      ((getCurrentPositionCallback s now).2.1 = true ↔
        specLocationOneShotAccept s.lastLogTime now) ∧
      ((watchPositionCallback s c now).2.2.1 = true ↔
        specLocationWatchAccept c s.lastLogTime now) ∧
      (s.lastLogTime = 0 → (getCurrentPositionCallback s now).2.1 = true) ∧
      ((getCurrentPositionCallback s now).2.1 = true →
        (getCurrentPositionCallback s now).1.lastLogTime = now) ∧
      ((watchPositionCallback s c now).2.2.1 = true →
        (watchPositionCallback s c now).1.lastLogTime = now) := by
  intro s now c h1 h2
  have hcs1 : ((now : Int) - (s.lastLogTime : Int) = (now : Int) ∨
      (now : Int) - (s.lastLogTime : Int) ≥ MIN_LOG_INTERVAL) ↔
      specLocationOneShotAccept s.lastLogTime now := by
    unfold specLocationOneShotAccept MIN_LOG_INTERVAL
    omega
  have hcs2 : (c + 1 = 1 ∨
      (now : Int) - (s.lastLogTime : Int) ≥ MIN_LOG_INTERVAL) ↔
      specLocationWatchAccept c s.lastLogTime now := by
    unfold specLocationWatchAccept MIN_LOG_INTERVAL
    omega
  have hone : (getCurrentPositionCallback s now).2.1 = true ↔
      ((now : Int) - (s.lastLogTime : Int) = (now : Int) ∨
       (now : Int) - (s.lastLogTime : Int) ≥ MIN_LOG_INTERVAL) := by
    by_cases hc : ((now : Int) - (s.lastLogTime : Int) = (now : Int) ∨
        (now : Int) - (s.lastLogTime : Int) ≥ MIN_LOG_INTERVAL)
    · rw [getCurrentPosition_accept s now h1 h2 hc]
      exact iff_of_true rfl hc
    · rw [getCurrentPosition_reject s now h1 h2 hc]
      exact iff_of_false (by simp) hc
  have hwa : (watchPositionCallback s c now).2.2.1 = true ↔
      (c + 1 = 1 ∨ (now : Int) - (s.lastLogTime : Int) ≥ MIN_LOG_INTERVAL) := by
    by_cases hc : (c + 1 = 1 ∨
        (now : Int) - (s.lastLogTime : Int) ≥ MIN_LOG_INTERVAL)
    · rw [watchPosition_accept s c now h1 h2 hc]
      exact iff_of_true rfl hc
    · rw [watchPosition_reject s c now h1 h2 hc]
      exact iff_of_false (by simp) hc
  refine ⟨hone.trans hcs1, hwa.trans hcs2, ?_, ?_, ?_⟩
  · intro h0
    exact hone.mpr (Or.inl (by rw [h0]; simp))
  · intro hacc
    rw [getCurrentPosition_accept s now h1 h2 (hone.mp hacc)]
  · intro hacc
    rw [watchPosition_accept s c now h1 h2 (hwa.mp hacc)]

/-- Witness for C2 at the initial state and time 7: the first-ever one-shot
callback is accepted, the characterizations hold. -/
theorem location_acceptance_rule_witness :
    initState.isUnloading = false ∧
    inVisibilityWindow initState 7 = false ∧
    (((getCurrentPositionCallback initState 7).2.1 = true ↔
        specLocationOneShotAccept initState.lastLogTime 7) ∧
     ((watchPositionCallback initState 0 7).2.2.1 = true ↔
        specLocationWatchAccept 0 initState.lastLogTime 7) ∧
     (initState.lastLogTime = 0 → (getCurrentPositionCallback initState 7).2.1 = true) ∧
     ((getCurrentPositionCallback initState 7).2.1 = true →
        (getCurrentPositionCallback initState 7).1.lastLogTime = 7) ∧
     ((watchPositionCallback initState 0 7).2.2.1 = true →
        (watchPositionCallback initState 0 7).1.lastLogTime = 7)) :=
  ⟨rfl, by decide, location_acceptance_rule initState 7 0 rfl (by decide)⟩

/-- C10: a location acceptance still passes through the generic 500 ms
debouncer under the single key `location-accessed`.  From a fresh location
state, a one-shot callback accepted at time `T` emits one event, and the
first callback of a new continuous watch at time `Tp` with `Tp - T < 500` ms
is accepted by the location rule — `lastLogTime` is updated to `Tp` — yet
emits no event, because the generic debouncer suppresses the key. -/
theorem location_accept_generic_debounce :
    ∀ (s : ScriptState) (T Tp : Nat),
      s.isUnloading = false →
      s.lastVisibilityChange = 0 →
      s.lastLogTime = 0 →
      alookup ("location" ++ "-" ++ "accessed") s.loggedEvents = none →
      (Tp : Int) - (T : Int) < 500 →
      (getCurrentPositionCallback s T).2.1 = true ∧
      (getCurrentPositionCallback s T).2.2 = [("location", "accessed")] ∧
      (getCurrentPositionCallback s T).1.lastLogTime = T ∧
      (watchPositionCallback (getCurrentPositionCallback s T).1 0 Tp).2.2.1 = true ∧
      (watchPositionCallback (getCurrentPositionCallback s T).1 0 Tp).2.2.2 = [] ∧
      (watchPositionCallback (getCurrentPositionCallback s T).1 0 Tp).1.lastLogTime = Tp := by
  intro s T Tp h1 h2 h3 h4 h5
  have hv : inVisibilityWindow s T = false := by
    simp [inVisibilityWindow, h2]
  have hc : (T : Int) - (s.lastLogTime : Int) = (T : Int) ∨
      (T : Int) - (s.lastLogTime : Int) ≥ MIN_LOG_INTERVAL :=
    Or.inl (by rw [h3]; simp)
  have hshape := getCurrentPosition_accept s T h1 hv hc
  have hnot := notify_accepts_of_fresh s "location" "accessed" T h4
  have hfields := notify_fields s "location" "accessed" T
  have hs1u : (getCurrentPositionCallback s T).1.isUnloading = false := by
    rw [hshape]
    show (notifyPermissionUsage s "location" "accessed" T).1.isUnloading = false
    rw [hfields.2.1, h1]
  have hs1v : (getCurrentPositionCallback s T).1.lastVisibilityChange = 0 := by
    rw [hshape]
    show (notifyPermissionUsage s "location" "accessed" T).1.lastVisibilityChange = 0
    rw [hfields.2.2.1, h2]
  have hs1vw : inVisibilityWindow (getCurrentPositionCallback s T).1 Tp = false := by
    simp [inVisibilityWindow, hs1v]
  have hs1look : alookup ("location" ++ "-" ++ "accessed")
      (getCurrentPositionCallback s T).1.loggedEvents = some T := by
    rw [hshape]
    show alookup ("location" ++ "-" ++ "accessed")
      (notifyPermissionUsage s "location" "accessed" T).1.loggedEvents = some T
    rw [hnot]
    exact alookup_purge_aset ("location" ++ "-" ++ "accessed") T s.loggedEvents
  have hdup : (Tp : Int) - (T : Int) < DEBOUNCE_TIME := by
    unfold DEBOUNCE_TIME
    exact h5
  have hrej := notify_reject_shape (getCurrentPositionCallback s T).1
    "location" "accessed" Tp T hs1look hdup
  have hwshape := watchPosition_accept (getCurrentPositionCallback s T).1 0 Tp
    hs1u hs1vw (Or.inl rfl)
  refine ⟨?_, ?_, ?_, ?_, ?_, ?_⟩
  · rw [hshape]
  · rw [hshape]
    show (notifyPermissionUsage s "location" "accessed" T).2 = [("location", "accessed")]
    rw [hnot]
    rfl
  · rw [hshape]
  · rw [hwshape]
  · rw [hwshape]
    show (notifyPermissionUsage (getCurrentPositionCallback s T).1
      "location" "accessed" Tp).2 = []
    rw [hrej]
  · rw [hwshape]

/-- Witness for C10: one-shot accepted at time 0, first watch callback at
time 100 ms accepted by the location rule but silenced by the debouncer. -/
theorem location_accept_generic_debounce_witness :
    initState.isUnloading = false ∧
    initState.lastVisibilityChange = 0 ∧
    initState.lastLogTime = 0 ∧
    alookup ("location" ++ "-" ++ "accessed") initState.loggedEvents = none ∧
    ((100 : Nat) : Int) - ((0 : Nat) : Int) < 500 ∧
    ((getCurrentPositionCallback initState 0).2.1 = true ∧
     (getCurrentPositionCallback initState 0).2.2 = [("location", "accessed")] ∧
     (getCurrentPositionCallback initState 0).1.lastLogTime = 0 ∧
     (watchPositionCallback (getCurrentPositionCallback initState 0).1 0 100).2.2.1 = true ∧
     (watchPositionCallback (getCurrentPositionCallback initState 0).1 0 100).2.2.2 = [] ∧
     (watchPositionCallback (getCurrentPositionCallback initState 0).1 0 100).1.lastLogTime = 100) :=
  ⟨rfl, rfl, rfl, rfl, by decide,
   location_accept_generic_debounce initState 0 100 rfl rfl rfl rfl (by decide)⟩

/-- Counterexample for C3 as stated: the Notification wrapper raises its
`notifications/shown` signal before delegating, so a construction whose
underlying constructor throws still produces one usage event (here from the
initial state), even though the error is re-raised unchanged. -/
theorem notification_failure_emits_event :
    (notificationConstruct initState (Except.error 0 : Except Nat Nat) 0).2.1 =
      [("notifications", "shown")] ∧
    (notificationConstruct initState (Except.error 0 : Except Nat Nat) 0).2.2 =
      Except.error 0 := by
  constructor
  · rfl
  · rfl

/-- C3 (amended): for the promise-based wrapped capabilities — media capture
and the four clipboard operations — a failing underlying operation produces
zero usage events, leaves the state unchanged and re-raises the original
error unchanged; the Notification wrapper re-raises the original error
unchanged as well (but emits its signal before delegating, see
`notification_failure_emits_event`). -/
theorem wrapper_failure_propagation :
    ∀ (s : ScriptState) (now : Nat) (video audio : Bool) (e : Nat),
      getUserMedia s video audio (Except.error e : Except Nat Nat) now =
        (s, [], Except.error e) ∧
      clipboardReadText s (Except.error e : Except Nat (Option String)) now =
        (s, [], Except.error e) ∧
      clipboardRead s (Except.error e : Except Nat (Option (List Nat))) now =
        (s, [], Except.error e) ∧
      clipboardWriteText s (Except.error e : Except Nat Unit) now =
        (s, [], Except.error e) ∧
      clipboardWrite s (Except.error e : Except Nat Unit) now =
        (s, [], Except.error e) ∧
      (notificationConstruct s (Except.error e : Except Nat Nat) now).2.2 =
        Except.error e := by
  intro s now video audio e
  exact ⟨rfl, rfl, rfl, rfl, rfl, rfl⟩

/-- Counterexample for C4 as stated: a `readText` that resolves with the
empty string — an empty result — still produces one `clipboard-read/accessed`
usage event, because the wrapper only tests for `undefined`/`null`. -/
theorem clipboard_readText_empty_emits :
    (clipboardReadText initState
        (Except.ok (some "") : Except Unit (Option String)) 0).2.1 =
      [("clipboard-read", "accessed")] ∧
    (clipboardReadText initState
        (Except.ok (some "") : Except Unit (Option String)) 0).2.2 =
      Except.ok (some "") := by
  constructor
  · rfl
  · rfl

theorem notify_accept_of_window (s : ScriptState) (pt a : String) (now : Nat)
    (hwin : ∀ t0 : Nat, alookup (pt ++ "-" ++ a) s.loggedEvents = some t0 →
      (now : Int) - (t0 : Int) ≥ 500) :
    notifyPermissionUsage s pt a now =
      notifyAccept s (pt ++ "-" ++ a) pt a now := by
  cases hlk : alookup (pt ++ "-" ++ a) s.loggedEvents with
  | none => exact notify_accepts_of_fresh s pt a now hlk
  | some t0 =>
      refine notify_accept_of_stale s pt a now t0 hlk ?_
      have hge := hwin t0 hlk
      unfold DEBOUNCE_TIME
      omega

/-- C4 (amended): a clipboard read resolving with `undefined`/`null` (and a
structured read resolving with an empty item list) produces no usage event
and passes the resolved value through; a `readText` resolving with any
defined string — including the empty string — and a structured read with a
non-empty item list produce exactly one `clipboard-read/accessed` event when
the key is outside its 500 ms debounce window (absent from the map, or last
recorded at least 500 ms ago), again passing the resolved value through
unchanged. -/
theorem clipboard_read_event_rule :
    ∀ (s : ScriptState) (now : Nat) (t : String) (items : List Nat),
      clipboardReadText s (Except.ok (none : Option String) : Except Unit (Option String)) now =
        (s, [], Except.ok none) ∧
      clipboardRead s (Except.ok (none : Option (List Nat)) : Except Unit (Option (List Nat))) now =
        (s, [], Except.ok none) ∧
      clipboardRead s (Except.ok (some ([] : List Nat)) : Except Unit (Option (List Nat))) now =
        (s, [], Except.ok (some [])) ∧
      ((∀ t0 : Nat, alookup ("clipboard-read" ++ "-" ++ "accessed") s.loggedEvents = some t0 →
          (now : Int) - (t0 : Int) ≥ 500) →
        (clipboardReadText s (Except.ok (some t) : Except Unit (Option String)) now).2.1 =
          [("clipboard-read", "accessed")] ∧
        (clipboardReadText s (Except.ok (some t) : Except Unit (Option String)) now).2.2 =
          Except.ok (some t)) ∧
      ((∀ t0 : Nat, alookup ("clipboard-read" ++ "-" ++ "accessed") s.loggedEvents = some t0 →
          (now : Int) - (t0 : Int) ≥ 500) →
        items ≠ [] →
        (clipboardRead s (Except.ok (some items) : Except Unit (Option (List Nat))) now).2.1 =
          [("clipboard-read", "accessed")] ∧
        (clipboardRead s (Except.ok (some items) : Except Unit (Option (List Nat))) now).2.2 =
          Except.ok (some items)) := by
  intro s now t items
  refine ⟨rfl, rfl, rfl, ?_, ?_⟩
  · intro hwin
    have hacc := notify_accept_of_window s "clipboard-read" "accessed" now hwin
    constructor
    · show (notifyPermissionUsage s "clipboard-read" "accessed" now).2 =
        [("clipboard-read", "accessed")]
      rw [hacc]
      rfl
    · rfl
  · intro hwin hne
    have hacc := notify_accept_of_window s "clipboard-read" "accessed" now hwin
    have hlen : (decide (items.length > 0)) = true := by
      simp [List.length_pos]
      exact hne
    constructor
    · show (if (decide (items.length > 0)) = true then
          ((notifyPermissionUsage s "clipboard-read" "accessed" now).1,
           (notifyPermissionUsage s "clipboard-read" "accessed" now).2,
           Except.ok (some items))
        else (s, [], Except.ok (some items))).2.1 =
        [("clipboard-read", "accessed")]
      rw [if_pos hlen]
      show (notifyPermissionUsage s "clipboard-read" "accessed" now).2 =
        [("clipboard-read", "accessed")]
      rw [hacc]
      rfl
    · show (if (decide (items.length > 0)) = true then
          ((notifyPermissionUsage s "clipboard-read" "accessed" now).1,
           (notifyPermissionUsage s "clipboard-read" "accessed" now).2,
           Except.ok (some items))
        else (s, [], Except.ok (some items))).2.2 =
        Except.ok (some items)
      rw [if_pos hlen]

/-- Witness for C4 (amended): the key was recorded at time 0 and the reads
happen at 600 ms — outside the 500 ms window though present in the map — so
a second content-bearing read 600 ms after the first still emits exactly one
event; text `"hello"`, item list `[5]`. -/
theorem clipboard_read_event_rule_witness :
    (∀ t0 : Nat, alookup ("clipboard-read" ++ "-" ++ "accessed")
        ({ initState with loggedEvents := [("clipboard-read-accessed", 0)] } : ScriptState).loggedEvents = some t0 →
        ((600 : Nat) : Int) - (t0 : Int) ≥ 500) ∧
    ([5] : List Nat) ≠ [] ∧
    (clipboardReadText { initState with loggedEvents := [("clipboard-read-accessed", 0)] }
        (Except.ok (none : Option String) : Except Unit (Option String)) 600 =
      ({ initState with loggedEvents := [("clipboard-read-accessed", 0)] }, [], Except.ok none) ∧
     clipboardRead { initState with loggedEvents := [("clipboard-read-accessed", 0)] }
        (Except.ok (none : Option (List Nat)) : Except Unit (Option (List Nat))) 600 =
      ({ initState with loggedEvents := [("clipboard-read-accessed", 0)] }, [], Except.ok none) ∧
     clipboardRead { initState with loggedEvents := [("clipboard-read-accessed", 0)] }
        (Except.ok (some ([] : List Nat)) : Except Unit (Option (List Nat))) 600 =
      ({ initState with loggedEvents := [("clipboard-read-accessed", 0)] }, [], Except.ok (some [])) ∧
     ((clipboardReadText { initState with loggedEvents := [("clipboard-read-accessed", 0)] }
         (Except.ok (some "hello") : Except Unit (Option String)) 600).2.1 =
        [("clipboard-read", "accessed")] ∧
      (clipboardReadText { initState with loggedEvents := [("clipboard-read-accessed", 0)] }
         (Except.ok (some "hello") : Except Unit (Option String)) 600).2.2 =
        Except.ok (some "hello")) ∧
     ((clipboardRead { initState with loggedEvents := [("clipboard-read-accessed", 0)] }
         (Except.ok (some ([5] : List Nat)) : Except Unit (Option (List Nat))) 600).2.1 =
        [("clipboard-read", "accessed")] ∧
      (clipboardRead { initState with loggedEvents := [("clipboard-read-accessed", 0)] }
         (Except.ok (some ([5] : List Nat)) : Except Unit (Option (List Nat))) 600).2.2 =
        Except.ok (some [5]))) := by
  have hwin : ∀ t0 : Nat, alookup ("clipboard-read" ++ "-" ++ "accessed")
      ({ initState with loggedEvents := [("clipboard-read-accessed", 0)] } : ScriptState).loggedEvents = some t0 →
      ((600 : Nat) : Int) - (t0 : Int) ≥ 500 := by
    intro t0 h
    have h2 : some (0 : Nat) = some t0 := h
    injection h2 with h3
    omega
  have h := clipboard_read_event_rule
    { initState with loggedEvents := [("clipboard-read-accessed", 0)] } 600 "hello" [5]
  exact ⟨hwin, by decide,
    h.1, h.2.1, h.2.2.1, h.2.2.2.1 hwin, h.2.2.2.2 hwin (by decide)⟩

theorem saveLog_eq_take {α : Type} (logs : List α) (e : α) :
    saveLog logs e = (e :: logs).take 1000 := by
  unfold saveLog
  by_cases h : (e :: logs).length > 1000
  · rw [if_pos h]
  · rw [if_neg h]
    exact (List.take_of_length_le (by omega)).symm

theorem take_append_take {α : Type} (xs ys : List α) (n : Nat) :
    (xs ++ ys.take n).take n = (xs ++ ys).take n := by
  rw [List.take_append_eq_append_take, List.take_append_eq_append_take,
    List.take_take, inf_eq_left.mpr (Nat.sub_le n xs.length)]

theorem submitAll_take {α : Type} :
    ∀ (entries logs : List α), logs.length ≤ 1000 →
      submitAll logs entries = (entries.reverse ++ logs).take 1000 := by
  intro entries
  induction entries with
  | nil =>
      intro logs h
      rw [show ([] : List α).reverse ++ logs = logs by simp]
      show logs = List.take 1000 logs
      exact (List.take_of_length_le h).symm
  | cons e rest ih =>
      intro logs h
      show submitAll (saveLog logs e) rest = _
      rw [saveLog_eq_take]
      rw [ih ((e :: logs).take 1000) (by rw [List.length_take]; omega)]
      rw [take_append_take]
      congr 1
      rw [List.reverse_cons, List.append_assoc]
      rfl

/-- C7: the log store never holds more than 1000 entries after an insert,
and submitting 1001 usage events into an empty store leaves exactly 1000
retained, most-recent-first, with the oldest (first-submitted) entry
evicted: the result is the reversal of all but the first submitted entry. -/
theorem log_store_bound :
    (∀ (α : Type) (logs : List α) (e : α), (saveLog logs e).length ≤ 1000) ∧
    (∀ (α : Type) (es : List α), es.length = 1001 →
      submitAll ([] : List α) es = (es.drop 1).reverse ∧
      (submitAll ([] : List α) es).length = 1000) := by
  constructor
  · intro α logs e
    unfold saveLog
    by_cases h : (e :: logs).length > 1000
    · rw [if_pos h, List.length_take]
      omega
    · rw [if_neg h]
      omega
  · intro α es h
    have hsub : submitAll ([] : List α) es = es.reverse.take 1000 := by
      rw [submitAll_take es [] (by simp)]
      rw [List.append_nil]
    have hdrop : es.reverse.take 1000 = (es.drop 1).reverse := by
      rw [List.take_reverse, h]
    refine ⟨hsub.trans hdrop, ?_⟩
    rw [hsub, List.length_take, List.length_reverse, h]
    decide

/-- Witness for C7: submitting the 1001 entries `0, 1, ..., 1000` leaves the
1000 entries `1000, 999, ..., 1` (entry `0`, the oldest, evicted). -/
theorem log_store_bound_witness :
    (List.range 1001).length = 1001 ∧
    (submitAll ([] : List Nat) (List.range 1001) =
      ((List.range 1001).drop 1).reverse ∧
     (submitAll ([] : List Nat) (List.range 1001)).length = 1000) :=
  ⟨by simp, log_store_bound.2 Nat (List.range 1001) (by simp)⟩

/-- Relation between a debounce-map entry of the purging debouncer and the
purge-free one: present entries agree, and an entry present only in the
purge-free map is stale — more than 5000 ms older than the reference time
`t`, hence far outside the 500 ms rejection window. -/
def relOpt (t : Nat) : Option Nat → Option Nat → Prop
  | some a, some b => a = b
  | none, some b => (t : Int) - (b : Int) > 5000
  | none, none => True
  | some _, none => False

/-- Simulation invariant between the purging and purge-free debounce maps at
reference time `t` (every processed signal so far had time at most `t`). -/
def debounceInv (t : Nat) (mP mNP : List (String × Nat)) : Prop :=
  (akeys mP).Nodup ∧ (akeys mNP).Nodup ∧
  ∀ k : String, relOpt t (alookup k mP) (alookup k mNP)

theorem relOpt_mono {t now : Nat} (h : t ≤ now) :
    ∀ {o1 o2 : Option Nat}, relOpt t o1 o2 → relOpt now o1 o2 := by
  intro o1 o2 hr
  cases o1 with
  | none =>
      cases o2 with
      | none => exact trivial
      | some b =>
          simp only [relOpt] at hr ⊢
          omega
  | some a =>
      cases o2 with
      | none => exact hr.elim
      | some b => exact hr

theorem debounceInv_accept (t now : Nat) (key : String)
    (mP mNP : List (String × Nat)) (hInv : debounceInv t mP mNP)
    (ht : t ≤ now) :
    debounceInv now (purgeOld now (aset key now mP)) (aset key now mNP) := by
  obtain ⟨hnP, hnNP, hrel⟩ := hInv
  refine ⟨nodup_akeys_filter _ _ (nodup_akeys_aset key now mP hnP),
    nodup_akeys_aset key now mNP hnNP, ?_⟩
  intro k
  by_cases hk : k = key
  · subst hk
    rw [alookup_purge_aset k now mP, alookup_aset_self k now mNP]
    exact rfl
  · have hfil := alookup_filter_nodup k
      (fun e : String × Nat => !(decide ((now : Int) - (e.2 : Int) > 5000)))
      (aset key now mP) (nodup_akeys_aset key now mP hnP)
    have hPne := alookup_aset_ne (j := k) (k := key) now hk mP
    have hNPne := alookup_aset_ne (j := k) (k := key) now hk mNP
    have hrelk := hrel k
    unfold purgeOld
    rw [hfil, hPne, hNPne]
    cases hmP : alookup k mP with
    | none =>
        cases hmNP : alookup k mNP with
        | none => exact trivial
        | some b =>
            rw [hmP, hmNP] at hrelk
            simp only [relOpt] at hrelk ⊢
            omega
    | some v =>
        cases hmNP : alookup k mNP with
        | none =>
            rw [hmP, hmNP] at hrelk
            exact hrelk.elim
        | some b =>
            rw [hmP, hmNP] at hrelk
            simp only [relOpt] at hrelk
            subst hrelk
            show relOpt now
              (if (!(decide ((now : Int) - (v : Int) > 5000))) = true
               then some v else none) (some v)
            by_cases hold : (now : Int) - (v : Int) > 5000
            · rw [if_neg (by
                simp only [Bool.not_eq_true, Bool.not_eq_false', decide_eq_true_eq]
                exact hold)]
              simp only [relOpt]
              omega
            · rw [if_pos (by
                simp only [Bool.not_eq_true', decide_eq_false_iff_not]
                exact hold)]
              exact rfl

theorem debounce_step (sP sNP : ScriptState) (pt a : String) (t now : Nat)
    (hInv : debounceInv t sP.loggedEvents sNP.loggedEvents) (ht : t ≤ now) :
    (notifyPermissionUsage sP pt a now).2 =
      (notifyPermissionUsageNoPurge sNP pt a now).2 ∧
    debounceInv now (notifyPermissionUsage sP pt a now).1.loggedEvents
      (notifyPermissionUsageNoPurge sNP pt a now).1.loggedEvents := by
  obtain ⟨hnP, hnNP, hrel⟩ := hInv
  have hrelk := hrel (pt ++ "-" ++ a)
  unfold notifyPermissionUsage notifyPermissionUsageNoPurge
  cases hP : alookup (pt ++ "-" ++ a) sP.loggedEvents with
  | none =>
      cases hNP : alookup (pt ++ "-" ++ a) sNP.loggedEvents with
      | none =>
          simp only [hP, hNP, notifyAccept, notifyAcceptNoPurge]
          exact ⟨by trivial, debounceInv_accept t now _ _ _ ⟨hnP, hnNP, hrel⟩ ht⟩
      | some b =>
          rw [hP, hNP] at hrelk
          simp only [relOpt] at hrelk
          have hnd : ¬ ((now : Int) - (b : Int) < DEBOUNCE_TIME) := by
            unfold DEBOUNCE_TIME
            omega
          simp only [hP, hNP, if_neg hnd, notifyAccept, notifyAcceptNoPurge]
          exact ⟨by trivial, debounceInv_accept t now _ _ _ ⟨hnP, hnNP, hrel⟩ ht⟩
  | some v =>
      cases hNP : alookup (pt ++ "-" ++ a) sNP.loggedEvents with
      | none =>
          rw [hP, hNP] at hrelk
          exact hrelk.elim
      | some b =>
          rw [hP, hNP] at hrelk
          simp only [relOpt] at hrelk
          subst hrelk
          by_cases hlt : (now : Int) - (v : Int) < DEBOUNCE_TIME
          · simp only [hP, hNP, if_pos hlt]
            exact ⟨by trivial, hnP, hnNP, fun k => relOpt_mono ht (hrel k)⟩
          · simp only [hP, hNP, if_neg hlt, notifyAccept, notifyAcceptNoPurge]
            exact ⟨by trivial, debounceInv_accept t now _ _ _ ⟨hnP, hnNP, hrel⟩ ht⟩

theorem runs_agree :
    ∀ (sigs : List (String × String × Nat)) (t : Nat) (sP sNP : ScriptState),
      debounceInv t sP.loggedEvents sNP.loggedEvents →
      List.Chain (fun x y => x ≤ y) t (sigs.map (fun x => x.2.2)) →
      runSignals sP sigs = runSignalsNoPurge sNP sigs := by
  intro sigs
  induction sigs with
  | nil => intro t sP sNP _ _; rfl
  | cons sig rest ih =>
      intro t sP sNP hInv hchain
      obtain ⟨hts, hchain2⟩ := List.chain_cons.mp hchain
      have hstep := debounce_step sP sNP sig.1 sig.2.1 t sig.2.2 hInv hts
      show (notifyPermissionUsage sP sig.1 sig.2.1 sig.2.2).2 ::
          runSignals (notifyPermissionUsage sP sig.1 sig.2.1 sig.2.2).1 rest =
        (notifyPermissionUsageNoPurge sNP sig.1 sig.2.1 sig.2.2).2 ::
          runSignalsNoPurge (notifyPermissionUsageNoPurge sNP sig.1 sig.2.1 sig.2.2).1 rest
      rw [hstep.1]
      congr 1
      exact ih sig.2.2 _ _ hstep.2 hchain2

/-- C9: the 5000 ms purge of debounce-map entries is correctness-irrelevant.
For every time-monotone sequence of raw signals run from script start-up,
the events dispatched per signal — in particular every accept/reject
decision — are identical with and without the purge step. -/
theorem purge_correctness_irrelevant :
    ∀ (sigs : List (String × String × Nat)),
      List.Chain (fun x y => x ≤ y) 0 (sigs.map (fun x => x.2.2)) →
      runSignals initState sigs = runSignalsNoPurge initState sigs := by
  intro sigs hchain
  refine runs_agree sigs 0 initState initState ⟨?_, ?_, ?_⟩ hchain
  · exact List.nodup_nil
  · exact List.nodup_nil
  · intro k
    exact trivial

/-- Witness for C9: three camera/active signals at 0, 100 and 6000 ms give
the same per-signal event output with and without the purge step. -/
theorem purge_correctness_irrelevant_witness :
    List.Chain (fun x y => x ≤ y) 0
      (([("camera", "active", 0), ("camera", "active", 100),
         ("camera", "active", 6000)] :
        List (String × String × Nat)).map (fun x => x.2.2)) ∧
    runSignals initState
        [("camera", "active", 0), ("camera", "active", 100),
         ("camera", "active", 6000)] =
      runSignalsNoPurge initState
        [("camera", "active", 0), ("camera", "active", 100),
         ("camera", "active", 6000)] := by
  have hch : List.Chain (fun x y => x ≤ y) 0
      (([("camera", "active", 0), ("camera", "active", 100),
         ("camera", "active", 6000)] :
        List (String × String × Nat)).map (fun x => x.2.2)) :=
    List.Chain.cons (by decide)
      (List.Chain.cons (by decide) (List.Chain.cons (by decide) List.Chain.nil))
  exact ⟨hch, purge_correctness_irrelevant _ hch⟩
